import Mathlib

/-!
Shallow embedding of `mysql/utilities/command/serverclone.py` (function
`clone_server`).  The function is straight-line Python with one bounded
retry loop; every externally visible side effect (connecting to the source
server, filesystem changes, subprocess spawns and waits, sleeps, console
prints) is recorded in order in an explicit event trace.  External
collaborators that are not part of the repository sources (the server
session object, the path-resolution helper, the operating system) are
modelled as oracles collected in `Env`.
-/

namespace ServerClone

/-- Connection dictionary built for the cloned instance (source lines 172-184):
user `root`, empty password, the host of the caller-supplied source
connection, the integer port, and on POSIX a unix socket under the new data
directory. -/
structure ConnInfo where
  user : String
  passwd : String
  host : String
  port : Nat
  unix_socket : Option String
deriving DecidableEq, Repr

/-- Observable side effects of a run of `clone_server`, in program order. -/
inductive Event where
  | sourceConnect (ok : Bool)
  | print (s : String)
  | rmtree (path : String) (ok : Bool)
  | mkdir (path : String)
  | queryBasedir
  | writeFile (name : String) (lines : List String)
  | spawn (cmd : String)
  | waitProc (exitCode : Int)
  | unlink (name : String)
  | sleep (secs : Nat)
  | connectAttempt (conn : ConnInfo) (n : Nat) (ok : Bool)
deriving DecidableEq, Repr

/-- Failure outcomes of `clone_server`.  Each constructor corresponds to one
`raise` site reachable from `clone_server`: `connectionError` for the source
`Server.connect` call (line 66), `unableToCreateDirectory` for line 82,
`unableToDetermineBasedir` for line 92, `missingInstallationFile` for a
failed required lookup inside `get_tool_path` (lines 96-108), and
`unableToCommunicate` for line 202. -/
inductive CloneError where
  | connectionError
  | unableToCreateDirectory (path : String)
  | unableToDetermineBasedir
  | missingInstallationFile (name : String)
  | unableToCommunicate
deriving DecidableEq, Repr

/-- Oracle for everything outside the repository source: whether the source
server accepts the connection, the state of the filesystem, the rows the
basedir query returns, which installation files exist, their contents, the
exit codes of the two waited-for subprocesses, which readiness-probe
attempt succeeds, and the platform. -/
structure Env where
  host : String
  sourceConnectOk : Bool
  dataDirExists : Bool
  rmtreeOk : Bool
  mkdirOk : Bool
  basedirRows : List (String × String)
  fileAt : String → Bool
  fileLines : String → List String
  hasLocalLayout : Bool
  bootstrapExit : Int
  connectOk : Nat → Bool
  adminExit : Int
  posix : Bool

/-- Path of a file resolved under the installation root. -/
def toolPath (basedir name : String) : String := basedir ++ name

/-- Modelled from the spec: `mysql.utilities.common.tools.get_tool_path` is
not under `src/` (only its call sites in `clone_server` are).  Per the spec
(section 4.1), the resolver fails with `MissingInstallationFile` naming the
specific file when a required file is not found, where required means both
executables and all four seed scripts, and it does not fail for purely
optional auxiliary files; per section 6 its result for a missing optional
file is `None`.  Accordingly the third positional argument at the call
sites is modelled as an extension-fixing flag (ignored here) and the fourth
as the required flag, so that the four seed lookups (third argument
`False`, fourth defaulted) are required while the auxiliary
`errgmsg.sys` lookup (both `False`) is optional. -/
def get_tool_path (env : Env) (basedir name : String)
    (fix_ext : Bool := true) (required : Bool := true) :
    Except CloneError (Option String) :=
  let _ := fix_ext
  if env.fileAt name then Except.ok (some (toolPath basedir name))
  else if required then Except.error (CloneError.missingInstallationFile name)
  else Except.ok none

/-- Resolved installation layout (source lines 96-108). -/
structure Tools where
  mysqld_path : String
  mysqladmin_path : String
  mysql_basedir : String
  system_tables : String
  system_tables_data : String
  test_data_timezone : String
  help_data : String
deriving DecidableEq, Repr

/-- The four seed SQL files, in the order `clone_server` resolves and
concatenates them (source lines 103-108 and 127-130). -/
def seedFiles : List String :=
  ["mysql_system_tables.sql", "mysql_system_tables_data.sql",
   "mysql_test_data_timezone.sql", "fill_help_tables.sql"]

/-- Lines 96-108: resolve the two executables, the optional errmsg file
(whose result is overwritten on line 100), the local packaging layout, and
the four seed scripts.  Pure: path computation plus existence checks. -/
def locateTools (env : Env) (basedir : String) : Except CloneError Tools := do
  let mysqld_path := (← get_tool_path env basedir "mysqld").getD ""
  let mysqladmin_path := (← get_tool_path env basedir "mysqladmin").getD ""
  let _ ← get_tool_path env basedir "share/english/errgmsg.sys" false false
  let mysql_basedir :=
    if env.hasLocalLayout then basedir ++ "local/mysql/" else basedir
  let system_tables := (← get_tool_path env basedir "mysql_system_tables.sql" false).getD ""
  let system_tables_data := (← get_tool_path env basedir "mysql_system_tables_data.sql" false).getD ""
  let test_data_timezone := (← get_tool_path env basedir "mysql_test_data_timezone.sql" false).getD ""
  let help_data := (← get_tool_path env basedir "fill_help_tables.sql" false).getD ""
  pure { mysqld_path, mysqladmin_path, mysql_basedir, system_tables,
         system_tables_data, test_data_timezone, help_data }

/-- Lines 65-69: connect to the source server (its failure is modelled from
the spec, section 6: connect yields a session or `ConnectionError`), then
announce the clone when not quiet. -/
def connectSource (env : Env) (quiet : Bool) :
    Except CloneError Unit × List Event :=
  if env.sourceConnectOk then
    (Except.ok (),
      [Event.sourceConnect true]
        ++ if quiet then [] else
          [Event.print ("# Cloning the MySQL server running on " ++ env.host ++ ".")])
  else (Except.error CloneError.connectionError, [Event.sourceConnect false])

/-- Lines 71-82: best-effort recursive removal of an existing target data
directory (`shutil.rmtree(new_data, True)` ignores removal errors), then
creation of the directory when it does not exist, raising on failure. -/
def prepareDataDir (env : Env) (new_data : String) (quiet : Bool) :
    Except CloneError Unit × List Event :=
  let existsNow := if env.dataDirExists then !env.rmtreeOk else false
  let d := (if env.dataDirExists then [Event.rmtree new_data env.rmtreeOk] else [])
    ++ if quiet then [] else [Event.print "# Creating new data directory..."]
  if existsNow then (Except.ok (), d)
  else if env.mkdirOk then (Except.ok (), d ++ [Event.mkdir new_data])
  else (Except.error (CloneError.unableToCreateDirectory new_data), d)

/-- Lines 84-92: query the source server for its basedir; the first row of
a non-empty result supplies it, an empty result is fatal. -/
def getBasedir (env : Env) (quiet : Bool) :
    Except CloneError String × List Event :=
  let d := (if quiet then [] else [Event.print "# Configuring new instance..."])
    ++ [Event.queryBasedir]
  match env.basedirRows with
  | [] => (Except.error CloneError.unableToDetermineBasedir, d)
  | r :: _ => (Except.ok r.2, d)

/-- Verbose file-location report (lines 110-117). -/
def toolLocationPrints (t : Tools) : List Event :=
  [Event.print "Location of files:",
   Event.print ("                      mysqld: " ++ t.mysqld_path),
   Event.print ("                  mysqladmin: " ++ t.mysqladmin_path),
   Event.print ("     mysql_system_tables.sql: " ++ t.system_tables),
   Event.print ("mysql_system_tables_data.sql: " ++ t.system_tables_data),
   Event.print ("mysql_test_data_timezone.sql: " ++ t.test_data_timezone),
   Event.print ("        fill_help_tables.sql: " ++ t.help_data)]

/-- Lines 125-130: the bootstrap script is the catalog-creation preamble
followed by the verbatim lines of the four seed files in fixed order. -/
def bootstrapLines (env : Env) (t : Tools) : List String :=
  ["CREATE DATABASE mysql;\n", "USE mysql;\n"]
    ++ env.fileLines t.system_tables
    ++ env.fileLines t.system_tables_data
    ++ env.fileLines t.test_data_timezone
    ++ env.fileLines t.help_data

/-- Line 135-137: the bootstrap command line. -/
def bootstrapCmd (t : Tools) (new_data : String) : String :=
  t.mysqld_path ++ " --no-defaults --bootstrap " ++ " --datadir=" ++ new_data
    ++ " --basedir=" ++ t.mysql_basedir ++ " " ++ " < bootstrap.sql"

/-- Whether a file with the given name exists after the trace, starting
from existence state `b` and applying each write and unlink in order. -/
def fileStateAfter (name : String) (b : Bool) (evs : List Event) : Bool :=
  evs.foldl (fun st e =>
    match e with
    | Event.writeFile n _ => if n = name then true else st
    | Event.unlink n => if n = name then false else st
    | _ => st) b

/-- Whether a file that did not exist before the run exists after it. -/
def fileExistsAfter (name : String) (evs : List Event) : Bool :=
  fileStateAfter name false evs

/-- Lines 123-149: write `bootstrap.sql`, run the one-shot bootstrap
subprocess and wait for it (the exit status `env.bootstrapExit` is the
value of `proc.wait()`; the source stores it in `res` and never reads it),
then unlink `bootstrap.sql` when it is a file. -/
def runBootstrapEvents (env : Env) (t : Tools) (new_data : String) : List Event :=
  let d := [Event.writeFile "bootstrap.sql" (bootstrapLines env t),
            Event.spawn (bootstrapCmd t new_data),
            Event.waitProc env.bootstrapExit]
  if fileExistsAfter "bootstrap.sql" d then d ++ [Event.unlink "bootstrap.sql"]
  else d

/-- Python truthiness of the optional mysqld options argument. -/
def pyTruthy : Option String → Bool
  | none => false
  | some s => !(s == "")

/-- Lines 154-163: the startup command line of the long-running server. -/
def serverStartCmd (t : Tools) (new_data : String) (new_port new_id : Nat)
    (mysqld_options : Option String) : String :=
  let cmd := t.mysqld_path ++ " --no-defaults "
  let cmd := if pyTruthy mysqld_options then
      cmd ++ mysqld_options.getD "" ++ " --user=root " else cmd
  cmd ++ "--datadir=" ++ new_data ++ " "
      ++ "--tmpdir=" ++ new_data ++ " "
      ++ "--pid-file=" ++ (new_data ++ "/clone.pid") ++ " "
      ++ "--port=" ++ toString new_port ++ " "
      ++ "--server-id=" ++ toString new_id ++ " "
      ++ "--basedir=" ++ t.mysql_basedir ++ " "
      ++ "--socket=" ++ new_data ++ "/mysql.sock "

/-- Lines 172-184: the connection dictionary used to probe the clone. -/
def cloneConn (env : Env) (new_data : String) (new_port : Nat) : ConnInfo :=
  { user := "root", passwd := "", host := env.host, port := new_port,
    unix_socket := if env.posix then some (new_data ++ "/mysql.sock") else none }

/-- Events of the probe attempt numbered `n`: the one-second sleep, the
connection attempt, and the verbose per-iteration message. -/
def attemptEvents (env : Env) (conn : ConnInfo) (verbose quiet : Bool) (n : Nat) :
    List Event :=
  [Event.sleep 1, Event.connectAttempt conn n (env.connectOk n)]
    ++ if verbose && !quiet then [Event.print "# trying again..."] else []

/-- Lines 187-199: the `while i < stop` loop.  The loop variable `i` grows
by at least one each pass, so from counter value `i` the loop runs at most
`stop - i` more iterations; the first argument is that remaining-iteration
bound, so that with remaining `r` the current `stop` is `i + r`.  A
successful connect sets `i` to `stop + 1`, after which the loop condition
fails, here returned directly. -/
def probeAux (env : Env) (conn : ConnInfo) (verbose quiet : Bool) :
    Nat → Nat → Nat × List Event
  | 0, i => (i, [])
  | r + 1, i =>
    let n := i + 1
    let here := attemptEvents env conn verbose quiet n
    if env.connectOk n then (n + r + 1, here)
    else
      let rest := probeAux env conn verbose quiet r n
      (rest.1, here ++ rest.2)

/-- Lines 187-202: run the probe loop with `stop = 10` from `i = 0`, then
raise when the loop exhausted its attempts (`i == stop`). -/
def readinessProbe (env : Env) (conn : ConnInfo) (verbose quiet : Bool) :
    Except CloneError Unit × List Event :=
  let (i, d) := probeAux env conn verbose quiet 10 0
  if i = 10 then (Except.error CloneError.unableToCommunicate, d)
  else (Except.ok (), d)

/-- Lines 206-223: the mysqladmin password-assignment command line. -/
def adminCmd (env : Env) (t : Tools) (new_data : String) (new_port : Nat)
    (rootpass : String) : String :=
  if env.posix then
    t.mysqladmin_path ++ " --no-defaults -v -uroot " ++ "--socket="
      ++ (new_data ++ "/mysql.sock") ++ " password " ++ rootpass ++ " "
  else
    t.mysqladmin_path ++ " --no-defaults -v -uroot " ++ "password "
      ++ rootpass ++ " --port=" ++ toString new_port

/-- Lines 225-234: the printed connection-information block. -/
def connInfoStr (env : Env) (new_data : String) (new_port : Nat)
    (rootpass : String) : String :=
  "# Connection Information:\n" ++ "#  -uroot"
    ++ (if rootpass = "" then "" else " -p" ++ rootpass)
    ++ (if env.posix then " --socket=" ++ new_data ++ "/mysql.sock"
        else " --port=" ++ toString new_port)

/-- Lines 201-235 after a successful probe: success message, optional
root-password assignment (whose waited-for exit status `env.adminExit` is
stored in `res` by the source and never read), and the final
connection-information printout.  The Python function body ends without a
return statement. -/
def afterProbe (env : Env) (t : Tools) (new_data : String) (new_port : Nat)
    (rootpass : String) (quiet : Bool) : List Event :=
  (if quiet then [] else [Event.print "# Success!"])
    ++ (if rootpass = "" then []
        else (if quiet then [] else [Event.print "# Setting the root password..."])
          ++ [Event.spawn (adminCmd env t new_data new_port rootpass),
              Event.waitProc env.adminExit])
    ++ (if quiet then [] else
        [Event.print (connInfoStr env new_data new_port rootpass),
         Event.print "#...done."])

/-- Lines 110-235 once the installation layout is resolved: verbose
location report, bootstrap run (exit status ignored by the source), server
launch, readiness probe, and post-probe steps. -/
def afterLocate (env : Env) (t : Tools) (new_data : String)
    (new_port new_id : Nat) (rootpass : String)
    (mysqld_options : Option String) (verbose quiet : Bool) :
    Except CloneError Unit × List Event :=
  let d := (if verbose && !quiet then toolLocationPrints t else [])
    ++ (if quiet then [] else
        [Event.print "# Setting up empty database and mysql tables..."])
    ++ runBootstrapEvents env t new_data
    ++ (if quiet then [] else
        [Event.print "# Starting new instance of the server..."])
    ++ [Event.spawn (serverStartCmd t new_data new_port new_id mysqld_options)]
    ++ (if quiet then [] else
        [Event.print "# Testing connection to new instance..."])
  match readinessProbe env (cloneConn env new_data new_port) verbose quiet with
  | (Except.error e, dP) => (Except.error e, d ++ dP)
  | (Except.ok _, dP) =>
    (Except.ok (), d ++ dP ++ afterProbe env t new_data new_port rootpass quiet)

/-- Lines 94-235 once the basedir is known: announce the tool search, then
resolve the layout (a failed required lookup raises here) and continue. -/
def afterBasedir (env : Env) (basedir new_data : String)
    (new_port new_id : Nat) (rootpass : String)
    (mysqld_options : Option String) (verbose quiet : Bool) :
    Except CloneError Unit × List Event :=
  let d := if quiet then [] else [Event.print "# Locating mysql tools..."]
  match locateTools env basedir with
  | Except.error e => (Except.error e, d)
  | Except.ok t =>
    let (r, d2) := afterLocate env t new_data new_port new_id rootpass
      mysqld_options verbose quiet
    (r, d ++ d2)

/-- Shallow embedding of `clone_server` (source lines 30-237).  The result
value is `Unit` on success because the Python function ends without a
return statement (its result is `None`); the second component is the
ordered trace of side effects of the run. -/
def clone_server (env : Env) (new_data : String) (new_port new_id : Nat)
    (rootpass : String) (mysqld_options : Option String := none)
    (verbose : Bool := false) (quiet : Bool := false) :
    Except CloneError Unit × List Event :=
  match connectSource env quiet with
  | (Except.error e, d) => (Except.error e, d)
  | (Except.ok _, d0) =>
    match prepareDataDir env new_data quiet with
    | (Except.error e, d1) => (Except.error e, d0 ++ d1)
    | (Except.ok _, d1) =>
      match getBasedir env quiet with
      | (Except.error e, d2) => (Except.error e, d0 ++ d1 ++ d2)
      | (Except.ok basedir, d2) =>
        let (r, d3) := afterBasedir env basedir new_data new_port new_id
          rootpass mysqld_options verbose quiet
        (r, d0 ++ d1 ++ d2 ++ d3)

/-- Subprocess command lines spawned during a trace, in order. -/
def spawns (evs : List Event) : List String :=
  evs.filterMap fun e =>
    match e with
    | Event.spawn c => some c
    | _ => none

/-- Files written during a trace, with their contents, in order. -/
def writes (evs : List Event) : List (String × List String) :=
  evs.filterMap fun e =>
    match e with
    | Event.writeFile n ls => some (n, ls)
    | _ => none

/-- Connection attempts made during a trace, in order. -/
def connAttempts (evs : List Event) : List (ConnInfo × Nat × Bool) :=
  evs.filterMap fun e =>
    match e with
    | Event.connectAttempt c n ok => some (c, n, ok)
    | _ => none

end ServerClone

namespace ServerClone

/-- Baseline oracle used by the concrete witnesses: a reachable source on
host `h` with basedir `b/`, every installation file present with a one-line
content tag, a fresh target, clean subprocess exits, and a clone that
accepts its first probe connection on a POSIX platform. -/
def envHappy : Env :=
  { host := "h", sourceConnectOk := true, dataDirExists := false,
    rmtreeOk := true, mkdirOk := true, basedirRows := [("basedir", "b/")],
    fileAt := fun _ => true, fileLines := fun p => [p ++ ":1\n"],
    hasLocalLayout := false, bootstrapExit := 0,
    connectOk := fun n => n == 1, adminExit := 0, posix := true }

theorem probeAux_all_fail (env : Env) (conn : ConnInfo) (verbose quiet : Bool) :
    ∀ (r i : Nat), (∀ n, i < n → n ≤ i + r → env.connectOk n = false) →
      probeAux env conn verbose quiet r i
        = (i + r, (List.range' (i + 1) r).flatMap (attemptEvents env conn verbose quiet)) := by
  intro r
  induction r with
  | zero => intro i _; simp [probeAux]
  | succ r ih =>
    intro i h
    have h1 : env.connectOk (i + 1) = false := h (i + 1) (by omega) (by omega)
    have h2 := ih (i + 1) (fun n hn1 hn2 => h n (by omega) (by omega))
    simp [probeAux, h1, h2, List.range'_succ]
    omega

theorem probeAux_success (env : Env) (conn : ConnInfo) (verbose quiet : Bool) :
    ∀ (r i k : Nat), i < k → k ≤ i + r → env.connectOk k = true →
      (∀ j, i < j → j < k → env.connectOk j = false) →
      probeAux env conn verbose quiet r i
        = (i + r + 1, (List.range' (i + 1) (k - i)).flatMap (attemptEvents env conn verbose quiet)) := by
  intro r
  induction r with
  | zero => intro i k h1 h2 _ _; omega
  | succ r ih =>
    intro i k h1 h2 h3 h4
    by_cases hk : k = i + 1
    · subst hk
      have hsub : i + 1 - i = 1 := by omega
      simp [probeAux, h3, hsub, List.range'_succ]
      omega
    · have h5 : env.connectOk (i + 1) = false := h4 (i + 1) (by omega) (by omega)
      have h6 := ih (i + 1) k (by omega) (by omega) h3 (fun j hj1 hj2 => h4 j (by omega) hj2)
      have h7 : k - i = (k - (i + 1)) + 1 := by omega
      simp [probeAux, h5, h6, h7, List.range'_succ]
      omega

end ServerClone

namespace ServerClone

/-- C3: the readiness probe makes its connection attempts strictly
sequentially, sleeping for the one-second interval before each attempt; on
a target that never becomes reachable it makes exactly 10 attempts
(numbered 1 to 10, each preceded by its sleep, as the trace equality
shows) and then fails with the unreachable-instance error, and on a target
that first becomes reachable on attempt k (1 <= k <= 10) it stops
immediately after attempt k, makes no further attempts, and returns
success, letting the operation proceed.  `readinessProbe` is exactly the
probe `clone_server` runs (source lines 187-202). -/
theorem readiness_probe_spec (env : Env) (conn : ConnInfo) (verbose quiet : Bool) :
    ((∀ n, 1 ≤ n → n ≤ 10 → env.connectOk n = false) →
      readinessProbe env conn verbose quiet
        = (Except.error CloneError.unableToCommunicate,
           (List.range' 1 10).flatMap (attemptEvents env conn verbose quiet)))
  ∧ (∀ k, 1 ≤ k → k ≤ 10 → env.connectOk k = true →
      (∀ j, 1 ≤ j → j < k → env.connectOk j = false) →
      readinessProbe env conn verbose quiet
        = (Except.ok (), (List.range' 1 k).flatMap (attemptEvents env conn verbose quiet))) := by
  constructor
  · intro h
    have h0 := probeAux_all_fail env conn verbose quiet 10 0
      (fun n hn1 hn2 => h n (by omega) (by omega))
    simp [readinessProbe, h0]
  · intro k hk1 hk2 hk3 hfail
    have h0 := probeAux_success env conn verbose quiet 10 0 k (by omega) (by omega) hk3
      (fun j hj1 hj2 => hfail j (by omega) hj2)
    simp [readinessProbe, h0]

/-- Witness for `readiness_probe_spec`: a target that never answers gives
ten attempts and the unreachable error; a target first reachable on
attempt 3 gives exactly three attempts and success. -/
theorem readiness_probe_spec_witness :
    (readinessProbe { envHappy with connectOk := fun _ => false } (cloneConn envHappy "d" 3307) false true
      = (Except.error CloneError.unableToCommunicate,
         (List.range' 1 10).flatMap
           (attemptEvents { envHappy with connectOk := fun _ => false } (cloneConn envHappy "d" 3307) false true)))
  ∧ (readinessProbe { envHappy with connectOk := fun n => n == 3 } (cloneConn envHappy "d" 3307) false true
      = (Except.ok (),
         (List.range' 1 3).flatMap
           (attemptEvents { envHappy with connectOk := fun n => n == 3 } (cloneConn envHappy "d" 3307) false true))) :=
  ⟨(readiness_probe_spec _ _ false true).1 (fun _ _ _ => rfl),
   (readiness_probe_spec _ _ false true).2 3 (by omega) (by omega) rfl
     (fun j _ hj2 => by simp only [beq_eq_false_iff_ne]; omega)⟩

end ServerClone

namespace ServerClone

theorem spawns_append (xs ys : List Event) :
    spawns (xs ++ ys) = spawns xs ++ spawns ys := by
  simp [spawns]

theorem writes_append (xs ys : List Event) :
    writes (xs ++ ys) = writes xs ++ writes ys := by
  simp [writes]

theorem connAttempts_append (xs ys : List Event) :
    connAttempts (xs ++ ys) = connAttempts xs ++ connAttempts ys := by
  simp [connAttempts]

theorem fileStateAfter_append (name : String) (b : Bool) (xs ys : List Event) :
    fileStateAfter name b (xs ++ ys) = fileStateAfter name (fileStateAfter name b xs) ys := by
  simp [fileStateAfter]

theorem connectSource_spawns (env : Env) (q : Bool) :
    spawns (connectSource env q).2 = [] := by
  cases hc : env.sourceConnectOk <;> cases q <;> simp [connectSource, hc, spawns]

theorem connectSource_writes (env : Env) (q : Bool) :
    writes (connectSource env q).2 = [] := by
  cases hc : env.sourceConnectOk <;> cases q <;> simp [connectSource, hc, writes]

theorem connectSource_connAttempts (env : Env) (q : Bool) :
    connAttempts (connectSource env q).2 = [] := by
  cases hc : env.sourceConnectOk <;> cases q <;> simp [connectSource, hc, connAttempts]

theorem connectSource_fsa (env : Env) (q : Bool) (name : String) (b : Bool) :
    fileStateAfter name b (connectSource env q).2 = b := by
  cases hc : env.sourceConnectOk <;> cases q <;> simp [connectSource, hc, fileStateAfter]

theorem prepareDataDir_spawns (env : Env) (nd : String) (q : Bool) :
    spawns (prepareDataDir env nd q).2 = [] := by
  cases h1 : env.dataDirExists <;> cases h2 : env.rmtreeOk <;> cases h3 : env.mkdirOk
    <;> cases q <;> simp [prepareDataDir, h1, h2, h3, spawns]

theorem prepareDataDir_writes (env : Env) (nd : String) (q : Bool) :
    writes (prepareDataDir env nd q).2 = [] := by
  cases h1 : env.dataDirExists <;> cases h2 : env.rmtreeOk <;> cases h3 : env.mkdirOk
    <;> cases q <;> simp [prepareDataDir, h1, h2, h3, writes]

theorem prepareDataDir_connAttempts (env : Env) (nd : String) (q : Bool) :
    connAttempts (prepareDataDir env nd q).2 = [] := by
  cases h1 : env.dataDirExists <;> cases h2 : env.rmtreeOk <;> cases h3 : env.mkdirOk
    <;> cases q <;> simp [prepareDataDir, h1, h2, h3, connAttempts]

theorem prepareDataDir_fsa (env : Env) (nd : String) (q : Bool) (name : String) (b : Bool) :
    fileStateAfter name b (prepareDataDir env nd q).2 = b := by
  cases h1 : env.dataDirExists <;> cases h2 : env.rmtreeOk <;> cases h3 : env.mkdirOk
    <;> cases q <;> simp [prepareDataDir, h1, h2, h3, fileStateAfter]

theorem getBasedir_spawns (env : Env) (q : Bool) :
    spawns (getBasedir env q).2 = [] := by
  rcases hr : env.basedirRows with _ | ⟨r, rs⟩ <;> cases q
    <;> simp [getBasedir, hr, spawns]

theorem getBasedir_writes (env : Env) (q : Bool) :
    writes (getBasedir env q).2 = [] := by
  rcases hr : env.basedirRows with _ | ⟨r, rs⟩ <;> cases q
    <;> simp [getBasedir, hr, writes]

theorem getBasedir_connAttempts (env : Env) (q : Bool) :
    connAttempts (getBasedir env q).2 = [] := by
  rcases hr : env.basedirRows with _ | ⟨r, rs⟩ <;> cases q
    <;> simp [getBasedir, hr, connAttempts]

theorem getBasedir_fsa (env : Env) (q : Bool) (name : String) (b : Bool) :
    fileStateAfter name b (getBasedir env q).2 = b := by
  rcases hr : env.basedirRows with _ | ⟨r, rs⟩ <;> cases q
    <;> simp [getBasedir, hr, fileStateAfter]

theorem toolLocationPrints_spawns (t : Tools) :
    spawns (toolLocationPrints t) = [] := by
  simp [toolLocationPrints, spawns]

theorem toolLocationPrints_writes (t : Tools) :
    writes (toolLocationPrints t) = [] := by
  simp [toolLocationPrints, writes]

theorem toolLocationPrints_connAttempts (t : Tools) :
    connAttempts (toolLocationPrints t) = [] := by
  simp [toolLocationPrints, connAttempts]

theorem toolLocationPrints_fsa (t : Tools) (name : String) (b : Bool) :
    fileStateAfter name b (toolLocationPrints t) = b := by
  simp [toolLocationPrints, fileStateAfter]

theorem afterProbe_spawns (env : Env) (t : Tools) (nd : String) (np : Nat)
    (rp : String) (q : Bool) :
    spawns (afterProbe env t nd np rp q)
      = if rp = "" then [] else [adminCmd env t nd np rp] := by
  by_cases hr : rp = "" <;> cases q <;> simp [afterProbe, hr, spawns]

theorem afterProbe_writes (env : Env) (t : Tools) (nd : String) (np : Nat)
    (rp : String) (q : Bool) :
    writes (afterProbe env t nd np rp q) = [] := by
  by_cases hr : rp = "" <;> cases q <;> simp [afterProbe, hr, writes]

theorem afterProbe_connAttempts (env : Env) (t : Tools) (nd : String) (np : Nat)
    (rp : String) (q : Bool) :
    connAttempts (afterProbe env t nd np rp q) = [] := by
  by_cases hr : rp = "" <;> cases q <;> simp [afterProbe, hr, connAttempts]

theorem afterProbe_fsa (env : Env) (t : Tools) (nd : String) (np : Nat)
    (rp : String) (q : Bool) (name : String) (b : Bool) :
    fileStateAfter name b (afterProbe env t nd np rp q) = b := by
  by_cases hr : rp = "" <;> cases q <;> simp [afterProbe, hr, fileStateAfter]

theorem attemptEvents_spawns (env : Env) (c : ConnInfo) (v q : Bool) (n : Nat) :
    spawns (attemptEvents env c v q n) = [] := by
  by_cases h : v && !q <;> simp [attemptEvents, h, spawns]

theorem attemptEvents_writes (env : Env) (c : ConnInfo) (v q : Bool) (n : Nat) :
    writes (attemptEvents env c v q n) = [] := by
  by_cases h : v && !q <;> simp [attemptEvents, h, writes]

theorem attemptEvents_connAttempts (env : Env) (c : ConnInfo) (v q : Bool) (n : Nat) :
    connAttempts (attemptEvents env c v q n) = [(c, n, env.connectOk n)] := by
  by_cases h : v && !q <;> simp [attemptEvents, h, connAttempts]

theorem attemptEvents_fsa (env : Env) (c : ConnInfo) (v q : Bool) (n : Nat)
    (name : String) (b : Bool) :
    fileStateAfter name b (attemptEvents env c v q n) = b := by
  by_cases h : v && !q <;> simp [attemptEvents, h, fileStateAfter]

theorem probeAux_spawns (env : Env) (c : ConnInfo) (v q : Bool) :
    ∀ r i, spawns (probeAux env c v q r i).2 = [] := by
  intro r
  induction r with
  | zero => intro i; simp [probeAux, spawns]
  | succ r ih =>
    intro i
    by_cases h : env.connectOk (i + 1)
      <;> simp [probeAux, h, spawns_append, attemptEvents_spawns, ih]

theorem probeAux_writes (env : Env) (c : ConnInfo) (v q : Bool) :
    ∀ r i, writes (probeAux env c v q r i).2 = [] := by
  intro r
  induction r with
  | zero => intro i; simp [probeAux, writes]
  | succ r ih =>
    intro i
    by_cases h : env.connectOk (i + 1)
      <;> simp [probeAux, h, writes_append, attemptEvents_writes, ih]

theorem probeAux_fsa (env : Env) (c : ConnInfo) (v q : Bool) (name : String) :
    ∀ r i b, fileStateAfter name b (probeAux env c v q r i).2 = b := by
  intro r
  induction r with
  | zero => intro i b; simp [probeAux, fileStateAfter]
  | succ r ih =>
    intro i b
    by_cases h : env.connectOk (i + 1)
      <;> simp [probeAux, h, fileStateAfter_append, attemptEvents_fsa, ih]

theorem probeAux_connAttempts_conn (env : Env) (c : ConnInfo) (v q : Bool) :
    ∀ r i x, x ∈ connAttempts (probeAux env c v q r i).2 → x.1 = c := by
  intro r
  induction r with
  | zero => intro i x hx; simp [probeAux, connAttempts] at hx
  | succ r ih =>
    intro i x hx
    by_cases h : env.connectOk (i + 1)
      <;> simp [probeAux, h, connAttempts_append, attemptEvents_connAttempts] at hx
    · rw [hx]
    · rcases hx with hx | hx
      · rw [hx]
      · exact ih (i + 1) x hx

end ServerClone

namespace ServerClone

/-- First seed file, in resolution order, that the resolver cannot find. -/
def firstMissingSeed (env : Env) : Option String :=
  seedFiles.find? (fun n => !env.fileAt n)

theorem locateTools_found (env : Env) (b : String)
    (h1 : env.fileAt "mysqld" = true) (h2 : env.fileAt "mysqladmin" = true)
    (h3 : env.fileAt "mysql_system_tables.sql" = true)
    (h4 : env.fileAt "mysql_system_tables_data.sql" = true)
    (h5 : env.fileAt "mysql_test_data_timezone.sql" = true)
    (h6 : env.fileAt "fill_help_tables.sql" = true) :
    locateTools env b = Except.ok
      { mysqld_path := toolPath b "mysqld",
        mysqladmin_path := toolPath b "mysqladmin",
        mysql_basedir := if env.hasLocalLayout then b ++ "local/mysql/" else b,
        system_tables := toolPath b "mysql_system_tables.sql",
        system_tables_data := toolPath b "mysql_system_tables_data.sql",
        test_data_timezone := toolPath b "mysql_test_data_timezone.sql",
        help_data := toolPath b "fill_help_tables.sql" } := by
  cases he : env.fileAt "share/english/errgmsg.sys"
    <;> simp [locateTools, get_tool_path, h1, h2, h3, h4, h5, h6, he, Bind.bind,
          Except.bind, Pure.pure, Except.pure]

theorem locateTools_missing (env : Env) (b : String) (f : String)
    (h1 : env.fileAt "mysqld" = true) (h2 : env.fileAt "mysqladmin" = true)
    (hf : firstMissingSeed env = some f) :
    locateTools env b = Except.error (CloneError.missingInstallationFile f) := by
  cases s1 : env.fileAt "mysql_system_tables.sql"
    <;> cases s2 : env.fileAt "mysql_system_tables_data.sql"
    <;> cases s3 : env.fileAt "mysql_test_data_timezone.sql"
    <;> cases s4 : env.fileAt "fill_help_tables.sql"
    <;> cases he : env.fileAt "share/english/errgmsg.sys"
    <;> simp [firstMissingSeed, seedFiles, List.find?, s1, s2, s3, s4] at hf
    <;> simp [locateTools, get_tool_path, h1, h2, s1, s2, s3, s4, he, Bind.bind,
          Except.bind, Pure.pure, Except.pure, ← hf]

end ServerClone

namespace ServerClone

/-- C1: when any one of the four seed SQL files cannot be located under the
basedir of the source server (here, the first missing one in resolution
order, which is the one the resolver reports), `clone_server` fails with
the missing-installation-file error naming that specific file, and no
subprocess of any kind is spawned — the trace contains no spawn event, so
no bootstrap subprocess is started and the only side effects are the ones
before the failed lookup. -/
theorem clone_missing_seed (env : Env) (new_data : String) (new_port new_id : Nat)
    (rootpass : String) (opts : Option String) (verbose quiet : Bool)
    (pr : String × String) (rows : List (String × String)) (f : String)
    (hconn : env.sourceConnectOk = true) (hmk : env.mkdirOk = true)
    (hrows : env.basedirRows = pr :: rows)
    (hd : env.fileAt "mysqld" = true) (ha : env.fileAt "mysqladmin" = true)
    (hf : firstMissingSeed env = some f) :
    (clone_server env new_data new_port new_id rootpass opts verbose quiet).1
        = Except.error (CloneError.missingInstallationFile f)
    ∧ spawns (clone_server env new_data new_port new_id rootpass opts verbose quiet).2 = [] := by
  obtain ⟨d0, hdc, hs0⟩ : ∃ d, connectSource env quiet = (Except.ok (), d) ∧ spawns d = [] := by
    refine ⟨(connectSource env quiet).2, ?_, connectSource_spawns env quiet⟩
    simp [connectSource, hconn]
  obtain ⟨d1, hdp, hs1⟩ : ∃ d, prepareDataDir env new_data quiet = (Except.ok (), d) ∧ spawns d = [] := by
    refine ⟨(prepareDataDir env new_data quiet).2, ?_, prepareDataDir_spawns env new_data quiet⟩
    cases h1 : env.dataDirExists <;> cases h2 : env.rmtreeOk
      <;> simp [prepareDataDir, h1, h2, hmk]
  obtain ⟨d2, hgb, hs2⟩ : ∃ d, getBasedir env quiet = (Except.ok pr.2, d) ∧ spawns d = [] := by
    refine ⟨(getBasedir env quiet).2, ?_, getBasedir_spawns env quiet⟩
    simp [getBasedir, hrows]
  have hlt := locateTools_missing env pr.2 f hd ha hf
  constructor
  · simp [clone_server, hdc, hdp, hgb, afterBasedir, hlt]
  · simp [clone_server, hdc, hdp, hgb, afterBasedir, hlt, spawns_append, hs0, hs1, hs2]
    cases quiet <;> simp [spawns]

/-- Oracle identical to `envHappy` except that the timezone seed file is
absent from the installation. -/
def envNoTz : Env :=
  { envHappy with fileAt := fun n => !(n == "mysql_test_data_timezone.sql") }

/-- Witness for `clone_missing_seed`: with the timezone seed file absent,
the run fails naming exactly that file and spawns nothing. -/
theorem clone_missing_seed_witness :
    (clone_server envNoTz "d" 3307 7 "" none false true).1
        = Except.error (CloneError.missingInstallationFile "mysql_test_data_timezone.sql")
    ∧ spawns (clone_server envNoTz "d" 3307 7 "" none false true).2 = [] :=
  clone_missing_seed envNoTz "d" 3307 7 "" none false true ("basedir", "b/") [] _
    rfl rfl rfl (by decide) (by decide) (by decide)

end ServerClone

namespace ServerClone

/-- C5: target-directory preparation.  When the target data directory
already exists and removal succeeds, it is recursively removed and then
recreated empty by `mkdir`; when the (best-effort) removal fails the error
is ignored and the run continues without raising; and when creating the
directory fails, `clone_server` stops with the directory-creation error and
the trace ends right there — no basedir query, no bootstrap, no spawn, no
further step of any kind is attempted. -/
theorem clone_dir_preparation (env : Env) (new_data : String) (quiet : Bool) :
    (env.dataDirExists = true → env.rmtreeOk = true → env.mkdirOk = true →
      prepareDataDir env new_data quiet
        = (Except.ok (), [Event.rmtree new_data true]
            ++ (if quiet then [] else [Event.print "# Creating new data directory..."])
            ++ [Event.mkdir new_data]))
  ∧ (env.dataDirExists = true → env.rmtreeOk = false →
      prepareDataDir env new_data quiet
        = (Except.ok (), [Event.rmtree new_data false]
            ++ (if quiet then [] else [Event.print "# Creating new data directory..."])))
  ∧ (∀ (new_port new_id : Nat) (rootpass : String) (opts : Option String) (verbose : Bool),
      env.sourceConnectOk = true → env.mkdirOk = false →
      (env.dataDirExists = false ∨ env.rmtreeOk = true) →
      clone_server env new_data new_port new_id rootpass opts verbose quiet
        = (Except.error (CloneError.unableToCreateDirectory new_data),
           ([Event.sourceConnect true]
             ++ (if quiet then []
                 else [Event.print ("# Cloning the MySQL server running on " ++ env.host ++ ".")]))
           ++ ((if env.dataDirExists then [Event.rmtree new_data env.rmtreeOk] else [])
             ++ (if quiet then [] else [Event.print "# Creating new data directory..."])))) := by
  refine ⟨?_, ?_, ?_⟩
  · intro h1 h2 h3
    simp [prepareDataDir, h1, h2, h3]
  · intro h1 h2
    simp [prepareDataDir, h1, h2]
  · intro np ni rp opts v hconn hmk hex
    rcases hex with h3 | h3
    · simp [clone_server, connectSource, hconn, prepareDataDir, h3, hmk]
    · cases h4 : env.dataDirExists
        <;> simp [clone_server, connectSource, hconn, prepareDataDir, h3, h4, hmk]

/-- Witness for `clone_dir_preparation`: the three branches at concrete
oracles — existing directory removed and recreated, failed removal
ignored, and a failed creation aborting the run with nothing after it. -/
theorem clone_dir_preparation_witness :
    (prepareDataDir { envHappy with dataDirExists := true } "d" true
      = (Except.ok (), [Event.rmtree "d" true]
          ++ (if true then [] else [Event.print "# Creating new data directory..."])
          ++ [Event.mkdir "d"]))
  ∧ (prepareDataDir { envHappy with dataDirExists := true, rmtreeOk := false } "d" true
      = (Except.ok (), [Event.rmtree "d" false]
          ++ (if true then [] else [Event.print "# Creating new data directory..."])))
  ∧ (clone_server { envHappy with mkdirOk := false } "d" 3307 7 "" none false true
      = (Except.error (CloneError.unableToCreateDirectory "d"),
         ([Event.sourceConnect true]
           ++ (if true then []
               else [Event.print ("# Cloning the MySQL server running on "
                      ++ ({ envHappy with mkdirOk := false } : Env).host ++ ".")]))
         ++ ((if ({ envHappy with mkdirOk := false } : Env).dataDirExists
              then [Event.rmtree "d" ({ envHappy with mkdirOk := false } : Env).rmtreeOk] else [])
           ++ (if true then [] else [Event.print "# Creating new data directory..."])))) :=
  ⟨(clone_dir_preparation { envHappy with dataDirExists := true } "d" true).1 rfl rfl rfl,
   (clone_dir_preparation { envHappy with dataDirExists := true, rmtreeOk := false } "d" true).2.1 rfl rfl,
   (clone_dir_preparation { envHappy with mkdirOk := false } "d" true).2.2 3307 7 "" none false
     rfl rfl (Or.inl rfl)⟩

end ServerClone

namespace ServerClone

theorem writes_nil : writes ([] : List Event) = [] := rfl

theorem writes_print1 (s : String) : writes [Event.print s] = [] := rfl

theorem writes_spawn1 (c : String) : writes [Event.spawn c] = [] := rfl

theorem writes_block (n : String) (ls : List String) (cmd : String) (ec : Int) :
    writes [Event.writeFile n ls, Event.spawn cmd, Event.waitProc ec, Event.unlink n]
      = [(n, ls)] := rfl

theorem spawns_nil : spawns ([] : List Event) = [] := rfl

theorem spawns_print1 (s : String) : spawns [Event.print s] = [] := rfl

theorem spawns_spawn1 (c : String) : spawns [Event.spawn c] = [c] := rfl

theorem spawns_block (n : String) (ls : List String) (cmd : String) (ec : Int) :
    spawns [Event.writeFile n ls, Event.spawn cmd, Event.waitProc ec, Event.unlink n]
      = [cmd] := rfl

theorem connAttempts_nil : connAttempts ([] : List Event) = [] := rfl

theorem connAttempts_print1 (s : String) : connAttempts [Event.print s] = [] := rfl

theorem connAttempts_spawn1 (c : String) : connAttempts [Event.spawn c] = [] := rfl

theorem connAttempts_block (n : String) (ls : List String) (cmd : String) (ec : Int) :
    connAttempts [Event.writeFile n ls, Event.spawn cmd, Event.waitProc ec, Event.unlink n]
      = [] := rfl

theorem runBootstrapEvents_eq (env : Env) (t : Tools) (nd : String) :
    runBootstrapEvents env t nd
      = [Event.writeFile "bootstrap.sql" (bootstrapLines env t),
         Event.spawn (bootstrapCmd t nd), Event.waitProc env.bootstrapExit,
         Event.unlink "bootstrap.sql"] := by
  simp [runBootstrapEvents, fileExistsAfter, fileStateAfter]

theorem readinessProbe_snd (env : Env) (c : ConnInfo) (v q : Bool) :
    (readinessProbe env c v q).2 = (probeAux env c v q 10 0).2 := by
  rcases h : probeAux env c v q 10 0 with ⟨i, d⟩
  by_cases hi : i = 10 <;> simp [readinessProbe, h, hi]

end ServerClone

namespace ServerClone

/-- C6: the generated bootstrap script is exactly the catalog-creation
preamble (a CREATE DATABASE statement followed by a USE statement) followed
by the verbatim lines of the four seed files in the fixed order
system-tables schema, system-tables data, timezone data, help data; the
trace contains exactly one file write, and this is its content. -/
theorem clone_bootstrap_script (env : Env) (new_data : String) (new_port new_id : Nat)
    (rootpass : String) (opts : Option String) (verbose quiet : Bool)
    (pr : String × String) (rows : List (String × String))
    (hconn : env.sourceConnectOk = true) (hmk : env.mkdirOk = true)
    (hrows : env.basedirRows = pr :: rows)
    (hd : env.fileAt "mysqld" = true) (ha : env.fileAt "mysqladmin" = true)
    (h3 : env.fileAt "mysql_system_tables.sql" = true)
    (h4 : env.fileAt "mysql_system_tables_data.sql" = true)
    (h5 : env.fileAt "mysql_test_data_timezone.sql" = true)
    (h6 : env.fileAt "fill_help_tables.sql" = true) :
    writes (clone_server env new_data new_port new_id rootpass opts verbose quiet).2
      = [("bootstrap.sql",
          ["CREATE DATABASE mysql;\n", "USE mysql;\n"]
            ++ env.fileLines (toolPath pr.2 "mysql_system_tables.sql")
            ++ env.fileLines (toolPath pr.2 "mysql_system_tables_data.sql")
            ++ env.fileLines (toolPath pr.2 "mysql_test_data_timezone.sql")
            ++ env.fileLines (toolPath pr.2 "fill_help_tables.sql"))] := by
  obtain ⟨d0, hdc, hw0⟩ : ∃ d, connectSource env quiet = (Except.ok (), d) ∧ writes d = [] := by
    refine ⟨(connectSource env quiet).2, ?_, connectSource_writes env quiet⟩
    simp [connectSource, hconn]
  obtain ⟨d1, hdp, hw1⟩ : ∃ d, prepareDataDir env new_data quiet = (Except.ok (), d) ∧ writes d = [] := by
    refine ⟨(prepareDataDir env new_data quiet).2, ?_, prepareDataDir_writes env new_data quiet⟩
    cases hx1 : env.dataDirExists <;> cases hx2 : env.rmtreeOk
      <;> simp [prepareDataDir, hx1, hx2, hmk]
  obtain ⟨d2, hgb, hw2⟩ : ∃ d, getBasedir env quiet = (Except.ok pr.2, d) ∧ writes d = [] := by
    refine ⟨(getBasedir env quiet).2, ?_, getBasedir_writes env quiet⟩
    simp [getBasedir, hrows]
  have hlt := locateTools_found env pr.2 hd ha h3 h4 h5 h6
  rcases hrp : readinessProbe env (cloneConn env new_data new_port) verbose quiet with ⟨rP, dP⟩
  have hdP : writes dP = [] := by
    have hsnd := readinessProbe_snd env (cloneConn env new_data new_port) verbose quiet
    rw [hrp] at hsnd
    simp only at hsnd
    rw [hsnd, probeAux_writes]
  cases rP
    <;> simp only [clone_server, hdc, hdp, hgb, afterBasedir, hlt, afterLocate, hrp,
          runBootstrapEvents_eq, writes_append, hw0, hw1, hw2, hdP,
          toolLocationPrints_writes, afterProbe_writes, apply_ite writes,
          writes_nil, writes_print1, writes_spawn1, writes_block, bootstrapLines]
    <;> simp

/-- Witness for `clone_bootstrap_script` at the concrete happy-path oracle. -/
theorem clone_bootstrap_script_witness :
    writes (clone_server envHappy "d" 3307 7 "" none false true).2
      = [("bootstrap.sql",
          ["CREATE DATABASE mysql;\n", "USE mysql;\n"]
            ++ envHappy.fileLines (toolPath "b/" "mysql_system_tables.sql")
            ++ envHappy.fileLines (toolPath "b/" "mysql_system_tables_data.sql")
            ++ envHappy.fileLines (toolPath "b/" "mysql_test_data_timezone.sql")
            ++ envHappy.fileLines (toolPath "b/" "fill_help_tables.sql"))] :=
  clone_bootstrap_script envHappy "d" 3307 7 "" none false true ("basedir", "b/") []
    rfl rfl rfl rfl rfl rfl rfl rfl rfl

end ServerClone

namespace ServerClone

theorem fsa_nil (name : String) (b : Bool) : fileStateAfter name b [] = b := rfl

theorem fsa_print1 (name : String) (b : Bool) (s : String) :
    fileStateAfter name b [Event.print s] = b := rfl

theorem fsa_spawn1 (name : String) (b : Bool) (c : String) :
    fileStateAfter name b [Event.spawn c] = b := rfl

theorem fsa_ite (name : String) (b : Bool) (c : Prop) [Decidable c] (xs ys : List Event) :
    fileStateAfter name b (if c then xs else ys)
      = if c then fileStateAfter name b xs else fileStateAfter name b ys := by
  split <;> rfl

theorem fsa_block (b : Bool) (L : List String) (cmd : String) (ec : Int) :
    fileStateAfter "bootstrap.sql" b
      [Event.writeFile "bootstrap.sql" L, Event.spawn cmd, Event.waitProc ec,
       Event.unlink "bootstrap.sql"] = false := by
  simp [fileStateAfter]

theorem mem_writes (n : String) (L : List String) (evs : List Event)
    (h : Event.writeFile n L ∈ evs) : (n, L) ∈ writes evs :=
  List.mem_filterMap.2 ⟨_, h, rfl⟩

/-- C7: the temporary bootstrap script is a scoped resource.  For every
invocation whatsoever, the file `bootstrap.sql` does not exist after
`clone_server` returns (first conjunct, with the file initially absent as
in the source working directory), and whenever the script is written at
all, the write is immediately followed in the trace by the bootstrap
spawn, its wait, and the unlink — created right before invoking the server
binary, deleted after the bootstrap process exits with whatever status
(second conjunct). -/
theorem clone_bootstrap_file_scoped (env : Env) (nd : String) (np ni : Nat)
    (rp : String) (opts : Option String) (v q : Bool) :
    fileExistsAfter "bootstrap.sql" (clone_server env nd np ni rp opts v q).2 = false
  ∧ (∀ L, Event.writeFile "bootstrap.sql" L ∈ (clone_server env nd np ni rp opts v q).2 →
      ∃ l1 cmd ec l2, (clone_server env nd np ni rp opts v q).2
        = l1 ++ [Event.writeFile "bootstrap.sql" L, Event.spawn cmd,
                 Event.waitProc ec, Event.unlink "bootstrap.sql"] ++ l2) := by
  have hf0 := connectSource_fsa env q "bootstrap.sql"
  have hw0 := connectSource_writes env q
  have hf1 := prepareDataDir_fsa env nd q "bootstrap.sql"
  have hw1 := prepareDataDir_writes env nd q
  have hf2 := getBasedir_fsa env q "bootstrap.sql"
  have hw2 := getBasedir_writes env q
  rcases hdc : connectSource env q with ⟨r0, d0⟩
  rw [hdc] at hf0 hw0
  simp only at hf0 hw0
  cases r0 with
  | error e =>
    refine ⟨by simp [clone_server, hdc, fileExistsAfter, hf0], ?_⟩
    intro L hL
    exfalso
    simp only [clone_server, hdc] at hL
    have := mem_writes _ _ _ hL
    rw [hw0] at this
    simp at this
  | ok u0 =>
    rcases hdp : prepareDataDir env nd q with ⟨r1, d1⟩
    rw [hdp] at hf1 hw1
    simp only at hf1 hw1
    cases r1 with
    | error e =>
      refine ⟨by simp [clone_server, hdc, hdp, fileExistsAfter, fileStateAfter_append, hf0, hf1], ?_⟩
      intro L hL
      exfalso
      simp only [clone_server, hdc, hdp] at hL
      have := mem_writes _ _ _ hL
      rw [writes_append, hw0, hw1] at this
      simp at this
    | ok u1 =>
      rcases hgb : getBasedir env q with ⟨r2, d2⟩
      rw [hgb] at hf2 hw2
      simp only at hf2 hw2
      cases r2 with
      | error e =>
        refine ⟨by simp [clone_server, hdc, hdp, hgb, fileExistsAfter, fileStateAfter_append, hf0, hf1, hf2], ?_⟩
        intro L hL
        exfalso
        simp only [clone_server, hdc, hdp, hgb] at hL
        have := mem_writes _ _ _ hL
        rw [writes_append, writes_append, hw0, hw1, hw2] at this
        simp at this
      | ok bd =>
        rcases hloc : locateTools env bd with e | t
        · refine ⟨?_, ?_⟩
          · simp only [clone_server, hdc, hdp, hgb, afterBasedir, hloc, fileExistsAfter,
              fileStateAfter_append, hf0, hf1, hf2, fsa_ite, fsa_nil, fsa_print1, ite_self]
          · intro L hL
            exfalso
            simp only [clone_server, hdc, hdp, hgb, afterBasedir, hloc] at hL
            have := mem_writes _ _ _ hL
            rw [writes_append, writes_append, writes_append, hw0, hw1, hw2] at this
            rcases hq : q <;> simp [hq, writes_print1, writes_nil] at this
        · rcases hrp : readinessProbe env (cloneConn env nd np) v q with ⟨rP, dP⟩
          have hfP : ∀ b, fileStateAfter "bootstrap.sql" b dP = b := by
            intro b
            have hsnd := readinessProbe_snd env (cloneConn env nd np) v q
            rw [hrp] at hsnd
            simp only at hsnd
            rw [hsnd, probeAux_fsa]
          have hfA := afterProbe_fsa env t nd np rp q "bootstrap.sql"
          cases rP with
          | error e =>
            refine ⟨?_, ?_⟩
            · simp only [clone_server, hdc, hdp, hgb, afterBasedir, hloc, afterLocate, hrp,
                runBootstrapEvents_eq, fileExistsAfter, fileStateAfter_append, hf0, hf1, hf2,
                fsa_ite, fsa_nil, fsa_print1, fsa_spawn1, ite_self, fsa_block,
                toolLocationPrints_fsa, hfP]
            · intro L hL
              simp only [clone_server, hdc, hdp, hgb, afterBasedir, hloc, afterLocate, hrp] at hL
              have hLw := mem_writes _ _ _ hL
              have hdPw : writes dP = [] := by
                have hsnd := readinessProbe_snd env (cloneConn env nd np) v q
                rw [hrp] at hsnd
                simp only at hsnd
                rw [hsnd, probeAux_writes]
              rw [writes_append, writes_append, writes_append, writes_append, hw0, hw1, hw2] at hLw
              rw [writes_append, writes_append, writes_append, writes_append, writes_append,
                runBootstrapEvents_eq, writes_block, hdPw] at hLw
              have hLeq : L = bootstrapLines env t := by
                rcases hq2 : q <;> rcases hv2 : v <;>
                  simp [hq2, hv2, writes_append, writes_print1, writes_nil, writes_spawn1,
                    toolLocationPrints_writes, apply_ite writes] at hLw <;>
                  exact hLw
              refine ⟨d0 ++ d1 ++ d2
                  ++ (if q then [] else [Event.print "# Locating mysql tools..."])
                  ++ (if v && !q then toolLocationPrints t else [])
                  ++ (if q then [] else [Event.print "# Setting up empty database and mysql tables..."]),
                bootstrapCmd t nd, env.bootstrapExit,
                (if q then [] else [Event.print "# Starting new instance of the server..."])
                  ++ [Event.spawn (serverStartCmd t nd np ni opts)]
                  ++ (if q then [] else [Event.print "# Testing connection to new instance..."])
                  ++ dP, ?_⟩
              subst hLeq
              simp [clone_server, hdc, hdp, hgb, afterBasedir, hloc, afterLocate, hrp,
                runBootstrapEvents_eq]
          | ok uP =>
            refine ⟨?_, ?_⟩
            · simp only [clone_server, hdc, hdp, hgb, afterBasedir, hloc, afterLocate, hrp,
                runBootstrapEvents_eq, fileExistsAfter, fileStateAfter_append, hf0, hf1, hf2,
                fsa_ite, fsa_nil, fsa_print1, fsa_spawn1, ite_self, fsa_block,
                toolLocationPrints_fsa, hfP, hfA]
            · intro L hL
              simp only [clone_server, hdc, hdp, hgb, afterBasedir, hloc, afterLocate, hrp] at hL
              have hLw := mem_writes _ _ _ hL
              have hdPw : writes dP = [] := by
                have hsnd := readinessProbe_snd env (cloneConn env nd np) v q
                rw [hrp] at hsnd
                simp only at hsnd
                rw [hsnd, probeAux_writes]
              have hAw := afterProbe_writes env t nd np rp q
              rw [writes_append, writes_append, writes_append, writes_append, hw0, hw1, hw2] at hLw
              rw [writes_append, writes_append, writes_append, writes_append, writes_append,
                writes_append, runBootstrapEvents_eq, writes_block, hdPw, hAw] at hLw
              have hLeq : L = bootstrapLines env t := by
                rcases hq2 : q <;> rcases hv2 : v <;>
                  simp [hq2, hv2, writes_append, writes_print1, writes_nil, writes_spawn1,
                    toolLocationPrints_writes, apply_ite writes] at hLw <;>
                  exact hLw
              refine ⟨d0 ++ d1 ++ d2
                  ++ (if q then [] else [Event.print "# Locating mysql tools..."])
                  ++ (if v && !q then toolLocationPrints t else [])
                  ++ (if q then [] else [Event.print "# Setting up empty database and mysql tables..."]),
                bootstrapCmd t nd, env.bootstrapExit,
                (if q then [] else [Event.print "# Starting new instance of the server..."])
                  ++ [Event.spawn (serverStartCmd t nd np ni opts)]
                  ++ (if q then [] else [Event.print "# Testing connection to new instance..."])
                  ++ dP ++ afterProbe env t nd np rp q, ?_⟩
              subst hLeq
              simp [clone_server, hdc, hdp, hgb, afterBasedir, hloc, afterLocate, hrp,
                runBootstrapEvents_eq]

end ServerClone

namespace ServerClone

/-- Witness for `clone_bootstrap_file_scoped` at the happy-path oracle:
the file is gone at the end and the write-spawn-wait-unlink block is in
the trace. -/
theorem clone_bootstrap_file_scoped_witness :
    fileExistsAfter "bootstrap.sql" (clone_server envHappy "d" 3307 7 "" none false true).2 = false
  ∧ (∃ l1 cmd ec l2, (clone_server envHappy "d" 3307 7 "" none false true).2
      = l1 ++ [Event.writeFile "bootstrap.sql"
                 ["CREATE DATABASE mysql;\n", "USE mysql;\n",
                  "b/mysql_system_tables.sql:1\n", "b/mysql_system_tables_data.sql:1\n",
                  "b/mysql_test_data_timezone.sql:1\n", "b/fill_help_tables.sql:1\n"],
               Event.spawn cmd, Event.waitProc ec, Event.unlink "bootstrap.sql"] ++ l2) :=
  ⟨(clone_bootstrap_file_scoped envHappy "d" 3307 7 "" none false true).1,
   (clone_bootstrap_file_scoped envHappy "d" 3307 7 "" none false true).2 _ (by decide)⟩

end ServerClone

namespace ServerClone

instance : DecidableEq (Except CloneError Unit) := fun a b =>
  match a, b with
  | Except.ok (), Except.ok () => isTrue rfl
  | Except.error e1, Except.error e2 =>
    match decEq e1 e2 with
    | isTrue h => isTrue (by rw [h])
    | isFalse h => isFalse (fun hh => by cases hh; exact h rfl)
  | Except.ok _, Except.error _ => isFalse (fun hh => by cases hh)
  | Except.error _, Except.ok _ => isFalse (fun hh => by cases hh)

/-- Oracle on which the one-shot bootstrap subprocess exits with code 1. -/
def envBootFail : Env := { envHappy with bootstrapExit := 1 }

/-- Oracle on which the admin (password-setting) subprocess exits with code 1. -/
def envAdminFail : Env := { envHappy with adminExit := 1 }

/-- C2: the source stores the exit status of the bootstrap subprocess
(`res = proc.wait()`, line 145) and never reads it.  On a run where the
bootstrap exits with code 1, `clone_server` nevertheless succeeds: the
trace records the wait returning 1, yet the long-running server instance
is still launched (second spawn), the readiness probe still runs, and the
result is success — no bootstrap failure is raised, contradicting the
claimed BootstrapFailed abort. -/
theorem clone_bootstrap_exit_ignored :
    (clone_server envBootFail "d" 3307 7 "" none false true).1 = Except.ok ()
  ∧ Event.waitProc 1 ∈ (clone_server envBootFail "d" 3307 7 "" none false true).2
  ∧ spawns (clone_server envBootFail "d" 3307 7 "" none false true).2
      = ["b/mysqld --no-defaults --bootstrap  --datadir=d --basedir=b/  < bootstrap.sql",
         "b/mysqld --no-defaults --datadir=d --tmpdir=d --pid-file=d/clone.pid --port=3307 --server-id=7 --basedir=b/ --socket=d/mysql.sock "]
  ∧ connAttempts (clone_server envBootFail "d" 3307 7 "" none false true).2 ≠ [] := by
  decide

/-- C4: the source stores the exit status of the admin subprocess
(`res = proc.wait()`, line 223) and never reads it.  With a non-empty
credential and the admin subprocess exiting 1, the run still succeeds and
raises nothing (first half) — contradicting the claimed
CredentialAssignmentFailed; with an empty credential no admin subprocess
is spawned at all and the step trivially succeeds (second half, which the
code does honour). -/
theorem clone_admin_exit_ignored :
    ((clone_server envAdminFail "d" 3307 7 "pw" none false true).1 = Except.ok ()
      ∧ Event.spawn "b/mysqladmin --no-defaults -v -uroot --socket=d/mysql.sock password pw "
          ∈ (clone_server envAdminFail "d" 3307 7 "pw" none false true).2
      ∧ Event.waitProc 1 ∈ (clone_server envAdminFail "d" 3307 7 "pw" none false true).2)
  ∧ (spawns (clone_server envAdminFail "d" 3307 7 "" none false true).2
      = ["b/mysqld --no-defaults --bootstrap  --datadir=d --basedir=b/  < bootstrap.sql",
         "b/mysqld --no-defaults --datadir=d --tmpdir=d --pid-file=d/clone.pid --port=3307 --server-id=7 --basedir=b/ --socket=d/mysql.sock "]
      ∧ (clone_server envAdminFail "d" 3307 7 "" none false true).1 = Except.ok ()) := by
  decide

/-- C8 counterexample: an invocation with an empty target data directory
path and an out-of-range port (70000) is not rejected: no validation
exists in the source, the source connection (a side effect) happens,
subprocesses are spawned, and the run even completes successfully. -/
theorem clone_no_validation_cx :
    (clone_server envHappy "" 70000 7 "" none false true).1 = Except.ok ()
  ∧ Event.sourceConnect true ∈ (clone_server envHappy "" 70000 7 "" none false true).2
  ∧ spawns (clone_server envHappy "" 70000 7 "" none false true).2 ≠ [] := by
  decide

/-- C8 amended: `clone_server` performs no entry validation at all; for
every invocation — whatever the data directory path or port values — its
very first side effect is the connection attempt to the source server. -/
theorem clone_first_effect (env : Env) (nd : String) (np ni : Nat) (rp : String)
    (opts : Option String) (v q : Bool) :
    ((clone_server env nd np ni rp opts v q).2).head?
      = some (Event.sourceConnect env.sourceConnectOk) := by
  cases hc : env.sourceConnectOk
  · simp [clone_server, connectSource, hc]
  · rcases hdp : prepareDataDir env nd q with ⟨r1, d1⟩
    cases r1 with
    | error e => cases q <;> simp [clone_server, connectSource, hc, hdp]
    | ok u1 =>
      rcases hgb : getBasedir env q with ⟨r2, d2⟩
      cases r2 with
      | error e => cases q <;> simp [clone_server, connectSource, hc, hdp, hgb]
      | ok bd =>
        rcases hab : afterBasedir env bd nd np ni rp opts v q with ⟨r3, d3⟩
        cases q <;> simp [clone_server, connectSource, hc, hdp, hgb, hab]

end ServerClone

namespace ServerClone

/-- C9 counterexample: the Python function body of `clone_server` ends
without a return statement, so its result value is None — embedded here as
the unit value.  On this concrete fully successful invocation the result
is the unit value: no connection coordinates are returned to the caller
(the result type carries none); the connection information is only
printed. -/
theorem clone_returns_none_cx :
    (clone_server envHappy "d" 3307 7 "pw" none false false).1 = Except.ok () := by
  decide

/-- C9 amended: on every fully successful non-quiet invocation,
`clone_server` prints the connection-information block for the new
instance (root user, the credential when one was set, socket on POSIX or
port otherwise) followed by the final done marker, and returns no value. -/
theorem clone_success_prints_conn (env : Env) (nd : String) (np ni : Nat)
    (rp : String) (opts : Option String) (v : Bool)
    (h : (clone_server env nd np ni rp opts v false).1 = Except.ok ()) :
    Event.print (connInfoStr env nd np rp) ∈ (clone_server env nd np ni rp opts v false).2
  ∧ Event.print "#...done." ∈ (clone_server env nd np ni rp opts v false).2 := by
  rcases hdc : connectSource env false with ⟨r0, d0⟩
  cases r0 with
  | error e => simp [clone_server, hdc] at h
  | ok u0 =>
    rcases hdp : prepareDataDir env nd false with ⟨r1, d1⟩
    cases r1 with
    | error e => simp [clone_server, hdc, hdp] at h
    | ok u1 =>
      rcases hgb : getBasedir env false with ⟨r2, d2⟩
      cases r2 with
      | error e => simp [clone_server, hdc, hdp, hgb] at h
      | ok bd =>
        rcases hloc : locateTools env bd with e | t
        · simp [clone_server, hdc, hdp, hgb, afterBasedir, hloc] at h
        · rcases hrp : readinessProbe env (cloneConn env nd np) v false with ⟨rP, dP⟩
          cases rP with
          | error e =>
            simp [clone_server, hdc, hdp, hgb, afterBasedir, hloc, afterLocate, hrp] at h
          | ok uP =>
            constructor
            · by_cases hr : rp = ""
                <;> simp [clone_server, hdc, hdp, hgb, afterBasedir, hloc, afterLocate, hrp,
                      afterProbe, hr]
            · by_cases hr : rp = ""
                <;> simp [clone_server, hdc, hdp, hgb, afterBasedir, hloc, afterLocate, hrp,
                      afterProbe, hr]

/-- Witness for `clone_success_prints_conn` at the happy-path oracle. -/
theorem clone_success_prints_conn_witness :
    Event.print (connInfoStr envHappy "d" 3307 "pw")
        ∈ (clone_server envHappy "d" 3307 7 "pw" none false false).2
  ∧ Event.print "#...done." ∈ (clone_server envHappy "d" 3307 7 "pw" none false false).2 :=
  clone_success_prints_conn envHappy "d" 3307 7 "pw" none false (by decide)

/-- C10 counterexample (to the claimed "and returned on success"): a
distinct concrete fully successful run whose result value is the unit
value (None in the source) — the probe coordinates are not returned to
the caller. -/
theorem clone_probe_returns_none_cx :
    (clone_server envHappy "e" 3310 8 "" none false true).1 = Except.ok () := by
  decide

/-- C10 amended: every connection attempt in the trace of any invocation
uses exactly the fixed coordinates of source lines 178-184: user root with
empty password, the host of the caller-supplied source connection info,
port int(new_port), and the unix socket new_data/mysql.sock on POSIX
platforms and no socket (pure TCP) otherwise. -/
theorem clone_probe_conn_fixed (env : Env) (nd : String) (np ni : Nat) (rp : String)
    (opts : Option String) (v q : Bool) (c : ConnInfo) (n : Nat) (ok : Bool)
    (h : Event.connectAttempt c n ok ∈ (clone_server env nd np ni rp opts v q).2) :
    c = { user := "root", passwd := "", host := env.host, port := np,
          unix_socket := if env.posix then some (nd ++ "/mysql.sock") else none } := by
  have hx : (c, n, ok) ∈ connAttempts (clone_server env nd np ni rp opts v q).2 :=
    List.mem_filterMap.2 ⟨_, h, rfl⟩
  have ha0 := connectSource_connAttempts env q
  have ha1 := prepareDataDir_connAttempts env nd q
  have ha2 := getBasedir_connAttempts env q
  rcases hdc : connectSource env q with ⟨r0, d0⟩
  rw [hdc] at ha0
  simp only at ha0
  cases r0 with
  | error e =>
    simp only [clone_server, hdc, ha0] at hx
    simp at hx
  | ok u0 =>
    rcases hdp : prepareDataDir env nd q with ⟨r1, d1⟩
    rw [hdp] at ha1
    simp only at ha1
    cases r1 with
    | error e =>
      simp only [clone_server, hdc, hdp, connAttempts_append, ha0, ha1] at hx
      simp at hx
    | ok u1 =>
      rcases hgb : getBasedir env q with ⟨r2, d2⟩
      rw [hgb] at ha2
      simp only at ha2
      cases r2 with
      | error e =>
        simp only [clone_server, hdc, hdp, hgb, connAttempts_append, ha0, ha1, ha2] at hx
        simp at hx
      | ok bd =>
        rcases hloc : locateTools env bd with e | t
        · simp only [clone_server, hdc, hdp, hgb, afterBasedir, hloc, connAttempts_append,
            ha0, ha1, ha2, apply_ite connAttempts, connAttempts_nil, connAttempts_print1,
            ite_self] at hx
          simp at hx
        · rcases hrp : readinessProbe env (cloneConn env nd np) v q with ⟨rP, dP⟩
          have hdPc : ∀ x, x ∈ connAttempts dP → x.1 = cloneConn env nd np := by
            intro x hxx
            have hsnd := readinessProbe_snd env (cloneConn env nd np) v q
            rw [hrp] at hsnd
            simp only at hsnd
            rw [hsnd] at hxx
            exact probeAux_connAttempts_conn env (cloneConn env nd np) v q 10 0 x hxx
          have hcc : c = cloneConn env nd np := by
            cases rP with
            | error e =>
              simp only [clone_server, hdc, hdp, hgb, afterBasedir, hloc, afterLocate, hrp,
                connAttempts_append, ha0, ha1, ha2, runBootstrapEvents_eq,
                apply_ite connAttempts, connAttempts_nil, connAttempts_print1,
                connAttempts_spawn1, connAttempts_block, toolLocationPrints_connAttempts,
                ite_self] at hx
              simp at hx
              exact hdPc (c, n, ok) hx
            | ok uP =>
              simp only [clone_server, hdc, hdp, hgb, afterBasedir, hloc, afterLocate, hrp,
                connAttempts_append, ha0, ha1, ha2, runBootstrapEvents_eq,
                apply_ite connAttempts, connAttempts_nil, connAttempts_print1,
                connAttempts_spawn1, connAttempts_block, toolLocationPrints_connAttempts,
                afterProbe_connAttempts, ite_self] at hx
              simp at hx
              exact hdPc (c, n, ok) hx
          rw [hcc]
          simp [cloneConn]

/-- Witness for `clone_probe_conn_fixed`: the first probe attempt of a
concrete run uses exactly those coordinates. -/
theorem clone_probe_conn_fixed_witness :
    ({ user := "root", passwd := "", host := "h", port := 3307,
       unix_socket := some "d/mysql.sock" } : ConnInfo)
      = { user := "root", passwd := "", host := envHappy.host, port := 3307,
          unix_socket := if envHappy.posix then some ("d" ++ "/mysql.sock") else none } :=
  clone_probe_conn_fixed envHappy "d" 3307 7 "" none false true _ 1 true (by decide)

end ServerClone
